import Mathlib

/-!
# Verification model of `textual-fspicker`'s navigation parts

A shallow embedding of `src/textual_fspicker/parts/directory_navigation.py`
and `src/textual_fspicker/parts/drive_navigation.py`.

Modelling conventions:

* A filesystem path is modelled as the list of its name components, already
  absolute: the root `/` is `[]`, `/a/b` is `["a", "b"]`.  `Path.resolve()`
  on such a path normalises `".."` and `"."` components (the model has no
  symlinks), which `resolvePath` captures.
* The filesystem is a pair of functions: `children` returns the entries of a
  directory together with their `is_dir()` flag, or `none` when the
  enumeration itself raises (the `iterdir` call failing); `mtime` gives the
  formatted modification-time label produced by `DirectoryEntry._mtime`
  (abstracted to a `Nat`, since only construction-time capture and equality
  matter to the properties below).
* The widget state (`DirectoryNavigation` after mounting) is `Sys`:
  the reactive `_location`, the `show_hidden` and `sort_display` flags,
  the parallel entry cache `_entries`, the option-list contents, the
  highlight, a count of posted `Changed` messages, and the set of workers
  started by `_load`.  `@work(exclusive=True)` threads are modelled as
  cooperatively scheduled workers: a `tick` runs one atomic slice of a
  worker — one loop body of `_load` (construct and append, then the
  `is_cancelled` check), matching the fact that the code only checks
  cancellation at child boundaries — and UI-thread actions
  (`set_location`, `toggle_hidden`, assigning `sort_display`) interleave
  between ticks.  The `DirectoryEntry` constructor `stat()`s its path and
  raises when it does not exist, killing the worker before the append;
  `tick` models this through the `statable` predicate.
-/

abbrev Name := String

/-- A resolved absolute path: the list of its components (root is `[]`). -/
abbrev FsPath := List Name

/-- Semantics of `Path(...).resolve()` on an absolute path in a symlink-free
filesystem: drop `"."` components and fold `".."` into the parent.
(`Path.__truediv__` followed by `resolve`, as used by
`DirectoryEntry.__init__` on `self._location / entry.name` and
`self._location / ".."`.) -/
def resolvePath (raw : List Name) : FsPath :=
  raw.foldl (fun acc c => if c = ".." then acc.dropLast else if c = "." then acc else acc ++ [c]) []

/-- Python `Path.name`: the final path component, `""` for the root. -/
def pathName (p : FsPath) : Name := p.getLastD ""

/-- Source `DirectoryNavigation.is_root`: `self._location == Path(self._location.root)`;
for an absolute resolved path this holds exactly at the filesystem root. -/
def is_root (p : FsPath) : Bool := p.isEmpty

/-- Python `s.startswith(t)`: `t`'s characters are a leading run of `s`'s. -/
def strStartsWith (s t : String) : Bool := t.data.isPrefixOf s.data

/-- Source `DirectoryNavigation.is_hidden`: `path.name.startswith(".")` (the
"dot hack" — the source explicitly only checks a leading dot). -/
def is_hidden (p : FsPath) : Bool := strStartsWith (pathName p) "."

/-- The filesystem as seen through `pathlib`: `children p` is the listing
`iterdir()` produces for `p` (each child name paired with its `is_dir()`
answer), or `none` when the enumeration raises (the path does not exist or
is not a directory); `mtime p` is the formatted modification time
`DirectoryEntry._mtime` reads via `stat()`, meaningful only for paths that
exist — `stat()` raising on a nonexistent path is modelled by the
`statable` predicate below, derived from `children`. -/
structure FS where
  children : FsPath → Option (List (Name × Bool))
  mtime : FsPath → Nat

/-- Source `DirectoryEntry`: stores the `resolve()`d location, plus the renderable
built at construction from the *raw* argument's `name` and a `stat()` of it.
(Python equality on this class is object identity — see `PyDirectoryEntry`
below; this structure models the entry's value contents.) -/
structure DirectoryEntry where
  location : FsPath
  label : Name
  mtimeLabel : Nat
deriving DecidableEq, Repr

/-- Constructor `DirectoryEntry(raw)`: resolve the location; render `raw.name` and
`raw.stat().st_mtime` (a `stat` follows symlinks/dots, so it reads the
resolved path's metadata).  The real constructor raises
`FileNotFoundError` from `_mtime`'s `stat()` when the path does not exist;
that error path is modelled where it bites — the worker slice in `tick`
guards construction with `statable` and kills the worker instead of
appending — so `mkEntry` itself is only evaluated at paths that exist. -/
def mkEntry (fs : FS) (raw : List Name) : DirectoryEntry :=
  { location := resolvePath raw
    label := raw.getLastD ""
    mtimeLabel := fs.mtime (resolvePath raw) }

/-- Source `DirectoryNavigation.hide`: `is_hidden(path) and not show_hidden`. -/
def hide (show_hidden : Bool) (p : FsPath) : Bool :=
  is_hidden p && !show_hidden

/-- Python's `str` ordering on character (code point) lists: lexicographic,
case-sensitive. -/
def charListLe : List Char → List Char → Bool
  | [], _ => true
  | _ :: _, [] => false
  | a :: as, b :: bs =>
    if a < b then true
    else if b < a then false
    else charListLe as bs

/-- Python's `s <= t` on strings: code-point lexicographic comparison. -/
def strLe (s t : String) : Bool := charListLe s.data t.data

/-- The comparison `sorted(..., key=lambda entry: entry.location.name)`
performs: lexicographic (case-sensitive) order on the resolved name. -/
def entryLe (a b : DirectoryEntry) : Bool :=
  strLe (pathName a.location) (pathName b.location)

theorem charListLe_trans : ∀ as bs cs : List Char,
    charListLe as bs = true → charListLe bs cs = true → charListLe as cs = true
  | [], _, _, _, _ => rfl
  | _ :: _, [], _, h1, _ => by simp [charListLe] at h1
  | _ :: _, _ :: _, [], _, h2 => by simp [charListLe] at h2
  | a :: as, b :: bs, c :: cs, h1, h2 => by
    simp only [charListLe] at h1 h2 ⊢
    rcases lt_trichotomy a b with hab | hab | hab
    · rcases lt_trichotomy b c with hbc | hbc | hbc
      · simp [lt_trans hab hbc]
      · subst hbc; simp [hab]
      · simp [hbc, lt_asymm hbc] at h2
    · subst hab
      rcases lt_trichotomy a c with hac | hac | hac
      · simp [hac]
      · subst hac
        simp [lt_irrefl] at h1 h2 ⊢
        exact charListLe_trans as bs cs h1 h2
      · simp [hac, lt_asymm hac] at h2
    · simp [hab, lt_asymm hab] at h1

theorem charListLe_total : ∀ as bs : List Char,
    (charListLe as bs || charListLe bs as) = true
  | [], _ => rfl
  | _ :: _, [] => rfl
  | a :: as, b :: bs => by
    simp only [charListLe]
    rcases lt_trichotomy a b with hab | hab | hab
    · simp [hab]
    · subst hab
      simp [lt_irrefl]
      exact Bool.or_eq_true _ _ ▸ charListLe_total as bs
    · simp [hab, lt_asymm hab]

theorem entryLe_trans (a b c : DirectoryEntry) (h1 : entryLe a b) (h2 : entryLe b c) :
    entryLe a c :=
  charListLe_trans _ _ _ h1 h2

theorem entryLe_total (a b : DirectoryEntry) : entryLe a b || entryLe b a :=
  charListLe_total _ _

/-- Relation `entryLe` as a `Prop`-valued relation, for the sorting library. -/
def entryRel (a b : DirectoryEntry) : Prop := entryLe a b = true

instance decEntryRel : DecidableRel entryRel := fun a b =>
  inferInstanceAs (Decidable (entryLe a b = true))

instance : IsTrans DirectoryEntry entryRel := ⟨entryLe_trans⟩

instance : IsTotal DirectoryEntry entryRel :=
  ⟨fun a b => by
    have := entryLe_total a b
    rcases Bool.or_eq_true_iff.mp this with h | h
    · exact Or.inl h
    · exact Or.inr h⟩

/-- Source `DirectoryNavigation._sort`: stable-sort by resolved name when
`sort_display` is set, otherwise return the entries unchanged.  (CPython's
`sorted` is the stable sort with respect to this total preorder, and a
stable sort's output is unique, so any stable sorting algorithm — here
insertion sort — computes it.) -/
def sortEntries (sort_display : Bool) (entries : List DirectoryEntry) : List DirectoryEntry :=
  if sort_display then entries.insertionSort entryRel else entries

/-- The synthetic parent row `_repopulate_display` prepends unless
`self.is_root`: `DirectoryEntry(self._location / "..")`. -/
def parentRows (fs : FS) (loc : FsPath) : List DirectoryEntry :=
  if is_root loc then [] else [mkEntry fs (loc ++ [".."])]

/-- The non-parent portion of the option list: the cached entries filtered
by `hide` and passed through `_sort`
(`self._sort(entry for entry in self._entries if not self.hide(entry.location))`). -/
def displayTail (show_hidden sort_display : Bool)
    (entries : List DirectoryEntry) : List DirectoryEntry :=
  sortEntries sort_display (entries.filter fun e => !hide show_hidden e.location)

/-- The option-list contents `_repopulate_display` builds: the synthetic
parent entry unless at the root, followed by the filtered, sorted cached
entries. -/
def display (fs : FS) (loc : FsPath) (show_hidden sort_display : Bool)
    (entries : List DirectoryEntry) : List DirectoryEntry :=
  parentRows fs loc ++ displayTail show_hidden sort_display entries

/-- The entry list a completed, uninterrupted `_load` of `loc` produces:
every `iterdir()` child whose `is_dir()` holds, in enumeration order,
wrapped as `DirectoryEntry(loc / name)`.  (`[]` when enumeration fails.) -/
def scanListing (fs : FS) (loc : FsPath) : List DirectoryEntry :=
  (((fs.children loc).getD []).filter (·.2)).map fun c => mkEntry fs (loc ++ [c.1])

/-- Whether `stat()` succeeds on a path: the root exists, and any other
path exists iff its final component is listed among its parent's children.
`DirectoryEntry.__init__` calls `location.stat()` (through `_mtime`), which
raises `FileNotFoundError` when the path does not exist — `FS.mtime` is
only ever consulted for paths that satisfy this predicate. -/
def statable (fs : FS) (p : FsPath) : Bool :=
  p.isEmpty ||
    match fs.children p.dropLast with
    | some l => l.any fun c => c.1 = pathName p
    | none => false

/-- The program counter of one `_load` worker thread:
`winit` — about to run `self._entries = []` and call `iterdir()`;
`loop cs` — inside the `for` loop with `cs` still to be yielded;
`wcommit` — the loop finished without observing cancellation, about to run
`self.app.call_from_thread(self._repopulate_display)`;
`wdone` — returned (or the worker errored out). -/
inductive WState where
  | winit
  | loop (pending : List (Name × Bool))
  | wcommit
  | wdone
deriving DecidableEq, Repr

/-- One worker started by the `@work(exclusive=True)`-decorated `_load`:
its cooperative cancellation flag and its program counter. -/
structure Worker where
  cancelled : Bool
  wstate : WState
deriving DecidableEq, Repr

/-- The mounted `DirectoryNavigation` widget's state. -/
structure Sys where
  location : FsPath
  show_hidden : Bool
  sort_display : Bool
  entries : List DirectoryEntry
  displayed : List DirectoryEntry
  highlighted : Option Nat
  changed_messages : Nat
  workers : List Worker
deriving DecidableEq, Repr

/-- Source `_repopulate_display` (run on the UI thread): rebuild the option list
from the *current* `_location`, flags and `_entries`, then
`_settle_highlight` (after `clear_options` the highlight is gone; settling
picks row 0, which on an empty list stays unset). -/
def repopulate_display (fs : FS) (s : Sys) : Sys :=
  let d := display fs s.location s.show_hidden s.sort_display s.entries
  { s with displayed := d, highlighted := if d.isEmpty then none else some 0 }

/-- Run one atomic slice of worker `i` of `_load`.  Slices: the
`self._entries = []` reset together with the `iterdir()` call (which may
raise, erroring the worker); one loop body — when the child `is_dir()`,
construct `DirectoryEntry(self._location / entry.name)` (note: this reads
the *current* shared `_location`, and the constructor `stat()`s the joined
path, raising and killing the worker before any append when that path does
not exist) and append it, then the `worker.is_cancelled` check; the loop's
normal exit; the single `call_from_thread(_repopulate_display)` hand-off. -/
def tick (fs : FS) (i : Nat) (s : Sys) : Sys :=
  match s.workers[i]? with
  | none => s
  | some w =>
    match w.wstate with
    | .wdone => s
    | .winit =>
      match fs.children s.location with
      | none => { s with entries := [], workers := s.workers.set i { w with wstate := .wdone } }
      | some cs => { s with entries := [], workers := s.workers.set i { w with wstate := .loop cs } }
    | .loop [] => { s with workers := s.workers.set i { w with wstate := .wcommit } }
    | .loop (c :: rest) =>
      if c.2 && !statable fs (resolvePath (s.location ++ [c.1])) then
        { s with workers := s.workers.set i { w with wstate := .wdone } }
      else
        let es := if c.2 then s.entries ++ [mkEntry fs (s.location ++ [c.1])] else s.entries
        if w.cancelled then
          { s with entries := es, workers := s.workers.set i { w with wstate := .wdone } }
        else
          { s with entries := es, workers := s.workers.set i { w with wstate := .loop rest } }
    | .wcommit =>
      let s' := repopulate_display fs s
      { s' with workers := s'.workers.set i { w with wstate := .wdone } }

/-- The `location` property setter on a mounted widget: resolve the
argument and assign the reactive `_location`.  The reactive `var` only
invokes `_watch__location` when the value actually changed; the watcher
posts `Changed` and calls `_load()`, whose `exclusive=True` group cancels
every earlier worker and starts a fresh one. -/
def set_location (raw : List Name) (s : Sys) : Sys :=
  let q := resolvePath raw
  if q = s.location then s
  else
    { s with
      location := q
      changed_messages := s.changed_messages + 1
      workers := (s.workers.map fun w => { w with cancelled := true }) ++ [⟨false, .winit⟩] }

/-- Source `toggle_hidden`: flip `show_hidden`; its watcher `_watch_show_hidden`
runs `_repopulate_display` (and nothing else — no `_load`). -/
def toggle_hidden (fs : FS) (s : Sys) : Sys :=
  repopulate_display fs { s with show_hidden := !s.show_hidden }

/-- Assigning the reactive `sort_display`: the watcher
`_watch_sort_display` runs `_repopulate_display` when the value changed. -/
def set_sort_display (fs : FS) (b : Bool) (s : Sys) : Sys :=
  if b = s.sort_display then s
  else repopulate_display fs { s with sort_display := b }

/-- An observable action on the widget: a UI-thread operation, or one
scheduled slice of a worker thread. -/
inductive Act where
  | setLoc (raw : List Name)
  | tick (i : Nat)
  | toggleHidden
  | setSort (b : Bool)

/-- Interpret one action. -/
def step (fs : FS) (a : Act) (s : Sys) : Sys :=
  match a with
  | .setLoc raw => set_location raw s
  | .tick i => tick fs i s
  | .toggleHidden => toggle_hidden fs s
  | .setSort b => set_sort_display fs b s

/-- Run a trace of actions (one interleaving of UI events and worker
slices). -/
def exec (fs : FS) : List Act → Sys → Sys
  | [], s => s
  | a :: rest, s => exec fs rest (step fs a s)

/-- Run `n` consecutive slices of worker `i`. -/
def ticks (fs : FS) (i : Nat) : Nat → Sys → Sys
  | 0, s => s
  | n + 1, s => ticks fs i n (tick fs i s)

/-- The state of the platform's `os.listdrives` API as `DriveNavigation`
sees it: it either returns a drive list (Windows, success), raises
`OSError` (Windows, enumeration failure), or does not exist at all
(every other platform — the attribute lookup raises `AttributeError`). -/
inductive DrivesApi where
  | available (drives : List String)
  | osError
  | missing
deriving DecidableEq, Repr

/-- Python `os.listdrives()` under the given API state. -/
def listdrives : DrivesApi → Except String (List String)
  | .available ds => .ok ds
  | .osError => .error "OSError"
  | .missing => .error "AttributeError"

/-- Source `DriveNavigation.on_mount`: `self.add_options(os.listdrives())` with no
error handling of any kind — the options added on success, the propagated
exception otherwise. -/
def driveOnMount (api : DrivesApi) : Except String (List String) :=
  listdrives api

/-- Python `==` semantics for `DirectoryEntry` objects: neither
`DirectoryEntry` nor textual's `Option` base class defines `__eq__`, so
`==` falls back to `object.__eq__` — object identity.  `oid` stands for
the object's identity (CPython's `id()`); every construction yields a
fresh `oid`, even from an equal path. -/
structure PyDirectoryEntry where
  oid : Nat
  location : FsPath
deriving DecidableEq, Repr

/-- Python `e1 == e2` on two `DirectoryEntry` objects: default identity test. -/
def pyEntryEq (a b : PyDirectoryEntry) : Bool := a.oid == b.oid

/-! ## Helper lemmas -/

theorem mem_displayTail {e : DirectoryEntry} {sh sd : Bool} {cache : List DirectoryEntry} :
    e ∈ displayTail sh sd cache ↔ e ∈ cache ∧ !hide sh e.location := by
  unfold displayTail sortEntries
  split <;> simp [List.mem_insertionSort, List.mem_filter]

theorem foldl_resolve_length (l : List Name) (acc : FsPath) :
    (l.foldl (fun acc c => if c = ".." then acc.dropLast else if c = "." then acc else acc ++ [c]) acc).length
      ≤ acc.length + l.length := by
  induction l generalizing acc with
  | nil => simp
  | cons c rest ih =>
    simp only [List.foldl_cons, List.length_cons]
    refine le_trans (ih _) ?_
    split
    · have := List.length_dropLast acc ▸ Nat.sub_le acc.length 1
      omega
    · split
      · omega
      · simp; omega

theorem resolvePath_length (raw : List Name) : (resolvePath raw).length ≤ raw.length := by
  simpa using foldl_resolve_length raw []

theorem resolvePath_append_up (loc : List Name) :
    resolvePath (loc ++ [".."]) = (resolvePath loc).dropLast := by
  simp [resolvePath, List.foldl_append]

example : is_hidden ["a", ".git"] = true := by decide
example : is_hidden ["a", "git"] = false := by decide
example : strLe "docs" "src" = true := by decide
example : strLe "src" "docs" = false := by decide
example : strStartsWith ".git" "." = true := by decide
example : resolvePath ["p", "q", ".."] = ["p"] := by decide

/-- Spec scenario filesystem: `/a` contains subdirectories `.git`, `src`,
`docs` (in that enumeration order); everything else is empty. -/
def fsScen : FS :=
  { children := fun p => if p = ["a"] then some [(".git", true), ("src", true), ("docs", true)] else some []
    mtime := fun _ => 0 }

example : scanListing fsScen ["a"]
    = [mkEntry fsScen ["a", ".git"], mkEntry fsScen ["a", "src"], mkEntry fsScen ["a", "docs"]] := by
  decide
example : display fsScen ["a"] false true (scanListing fsScen ["a"])
    = [mkEntry fsScen ["a", ".."], mkEntry fsScen ["a", "docs"], mkEntry fsScen ["a", "src"]] := by
  decide
example : display fsScen ["a"] true true (scanListing fsScen ["a"])
    = [mkEntry fsScen ["a", ".."], mkEntry fsScen ["a", ".git"], mkEntry fsScen ["a", "docs"],
       mkEntry fsScen ["a", "src"]] := by
  decide

/-- Filesystem for the superseded-scan trace, coherent as a tree: the root
holds directories `p`, `x`, `y`; `/p` and `/x/c` and `/y/d` are empty
directories; `/x` contains the directory `c`; `/y` contains a *file* named
`c` and the directory `d`.  Every other path does not exist (or is the
file `/y/c`), so enumerating it raises.  In particular `/y/c` exists and
is `stat()`-able, but `is_dir()` is false, so no scan of `/y` ever lists
it. -/
def fsRace : FS :=
  { children := fun p =>
      if p = [] then some [("p", true), ("x", true), ("y", true)]
      else if p = ["p"] then some []
      else if p = ["x"] then some [("c", true)]
      else if p = ["x", "c"] then some []
      else if p = ["y"] then some [("c", false), ("d", true)]
      else if p = ["y", "d"] then some []
      else none
    mtime := fun _ => 0 }

/-- A freshly mounted widget at `/p` with nothing loaded yet. -/
def sStart : Sys :=
  { location := ["p"], show_hidden := false, sort_display := true, entries := [],
    displayed := [], highlighted := none, changed_messages := 0, workers := [] }

/-- The overlapping-request interleaving: `setLocation(/x)` starts scan A;
A resets the cache and obtains `/x`'s listing; `setLocation(/y)` cancels A
and starts scan B; B runs to completion (reset, skip the file `c`, append
`d`, loop exit, hand-off); then A's thread resumes its pending loop body —
`entry.is_dir()` is true (`/x/c` is still a directory), it constructs and
appends `DirectoryEntry(self._location / "c")` (the *current* location
`/y` joined with A's child name — the existing file `/y/c`, so the
constructor's `stat()` succeeds) and only then sees `is_cancelled`. -/
def traceRace : List Act :=
  [.setLoc ["x"], .tick 0, .setLoc ["y"], .tick 1, .tick 1, .tick 1, .tick 1, .tick 1, .tick 0]

example :
    (exec fsRace traceRace sStart).entries
      = [mkEntry fsRace ["y", "d"], mkEntry fsRace ["y", "c"]] := by decide
example : scanListing fsRace ["y"] = [mkEntry fsRace ["y", "d"]] := by decide
example : statable fsRace ["y", "c"] = true := by decide

theorem parent_location_short (fs : FS) (loc : FsPath) :
    (mkEntry fs (loc ++ [".."])).location.length ≤ loc.length := by
  have h := resolvePath_length loc
  have h2 := List.length_dropLast (resolvePath loc)
  simp only [mkEntry, resolvePath_append_up]
  omega

theorem not_mem_parentRows (fs : FS) (loc : FsPath) (e : DirectoryEntry)
    (hlen : e.location.length = loc.length + 1) : e ∉ parentRows fs loc := by
  intro hmem
  unfold parentRows at hmem
  split at hmem
  · simp at hmem
  · simp only [List.mem_singleton] at hmem
    subst hmem
    have h1 := parent_location_short fs loc
    omega

theorem not_hide_iff (sh : Bool) (p : FsPath) :
    (!hide sh p) = true ↔ (is_hidden p = false ∨ sh = true) := by
  cases h1 : is_hidden p <;> cases sh <;> simp [hide, h1]

/-- C4: setting the location to the already-current location is a no-op —
when the assigned path resolves to the current location, no scan starts,
no `Changed` message is posted, and the whole widget state is unchanged
(the reactive `var` skips its watcher on an equal value). -/
theorem C4_set_location_idempotent (s : Sys) (raw : List Name)
    (h : resolvePath raw = s.location) :
    set_location raw s = s := by
  unfold set_location
  simp [h]

/-- Witness for C4 at a concrete input: assigning `/p/q/..`, which resolves
to the current location `/p`, leaves the freshly mounted widget unchanged. -/
theorem C4_set_location_idempotent_witness :
    resolvePath ["p", "q", ".."] = sStart.location
    ∧ set_location ["p", "q", ".."] sStart = sStart :=
  ⟨by decide, C4_set_location_idempotent sStart ["p", "q", ".."] (by decide)⟩

/-- C6: an entry is classified hidden exactly when its name starts with a
dot, and a cached entry (cache entries are children of the current
location) appears in the displayed list iff it is not hidden or
`show_hidden` is set. -/
theorem C6_hidden_rule (fs : FS) (loc : FsPath) (sh sd : Bool)
    (cache : List DirectoryEntry) (e : DirectoryEntry)
    (hcache : ∀ e' ∈ cache, e'.location.length = loc.length + 1)
    (he : e ∈ cache) :
    is_hidden e.location = strStartsWith (pathName e.location) "."
    ∧ (e ∈ display fs loc sh sd cache ↔ (is_hidden e.location = false ∨ sh = true)) := by
  refine ⟨rfl, ?_⟩
  rw [show display fs loc sh sd cache = parentRows fs loc ++ displayTail sh sd cache from rfl,
    List.mem_append]
  constructor
  · rintro (hp | ht)
    · exact absurd hp (not_mem_parentRows fs loc e (hcache e he))
    · exact (not_hide_iff sh e.location).mp (mem_displayTail.mp ht).2
  · intro h
    exact Or.inr (mem_displayTail.mpr ⟨he, (not_hide_iff sh e.location).mpr h⟩)

/-- Witness for C6 at a concrete input: in `/a` with cache `{.git, docs}`
and `show_hidden = false`, the hidden `.git` entry is absent from the
displayed list. -/
theorem C6_hidden_rule_witness :
    (∀ e' ∈ [mkEntry fsScen ["a", ".git"], mkEntry fsScen ["a", "docs"]],
        e'.location.length = (["a"] : FsPath).length + 1)
    ∧ (is_hidden (mkEntry fsScen ["a", ".git"]).location
        = strStartsWith (pathName (mkEntry fsScen ["a", ".git"]).location) "."
      ∧ (mkEntry fsScen ["a", ".git"]
            ∈ display fsScen ["a"] false true
              [mkEntry fsScen ["a", ".git"], mkEntry fsScen ["a", "docs"]]
          ↔ (is_hidden (mkEntry fsScen ["a", ".git"]).location = false ∨ false = true))) :=
  ⟨by decide,
   C6_hidden_rule fsScen ["a"] false true
     [mkEntry fsScen ["a", ".git"], mkEntry fsScen ["a", "docs"]]
     (mkEntry fsScen ["a", ".git"]) (by decide) (by decide)⟩

/-- C7: the displayed list contains the synthetic parent row iff the
current location is not the filesystem root; when present it is the first
row, and the displayed list is always the (unfiltered, unsorted) parent
rows followed by the filtered, sorted cache. -/
theorem C7_parent_rule (fs : FS) (loc : FsPath) (sh sd : Bool)
    (cache : List DirectoryEntry)
    (hcache : ∀ e' ∈ cache, e'.location.length = loc.length + 1) :
    (mkEntry fs (loc ++ [".."]) ∈ display fs loc sh sd cache ↔ is_root loc = false)
    ∧ (is_root loc = false →
        (display fs loc sh sd cache).head? = some (mkEntry fs (loc ++ [".."])))
    ∧ display fs loc sh sd cache = parentRows fs loc ++ displayTail sh sd cache := by
  refine ⟨?_, ?_, rfl⟩
  · constructor
    · intro hmem
      by_contra hne
      have hroot : is_root loc = true := by revert hne; cases is_root loc <;> simp
      rw [show display fs loc sh sd cache = parentRows fs loc ++ displayTail sh sd cache from rfl,
        List.mem_append] at hmem
      rcases hmem with hp | ht
      · unfold parentRows at hp
        rw [hroot] at hp
        simp at hp
      · have hc := (mem_displayTail.mp ht).1
        have hlen := hcache _ hc
        have hshort := parent_location_short fs loc
        omega
    · intro hroot
      rw [show display fs loc sh sd cache = parentRows fs loc ++ displayTail sh sd cache from rfl,
        List.mem_append]
      left
      unfold parentRows
      rw [hroot]
      simp
  · intro hroot
    unfold display parentRows
    rw [hroot]
    simp

/-- Witness for C7 at a concrete input: at non-root `/a` the parent row is
present and first; the structural decomposition holds. -/
theorem C7_parent_rule_witness :
    (∀ e' ∈ [mkEntry fsScen ["a", "docs"]], e'.location.length = (["a"] : FsPath).length + 1)
    ∧ ((mkEntry fsScen (["a"] ++ [".."]) ∈ display fsScen ["a"] false true
          [mkEntry fsScen ["a", "docs"]]
        ↔ is_root ["a"] = false)
      ∧ (is_root ["a"] = false →
          (display fsScen ["a"] false true [mkEntry fsScen ["a", "docs"]]).head?
            = some (mkEntry fsScen (["a"] ++ [".."])))
      ∧ display fsScen ["a"] false true [mkEntry fsScen ["a", "docs"]]
          = parentRows fsScen ["a"] ++ displayTail false true [mkEntry fsScen ["a", "docs"]]) :=
  ⟨by decide,
   C7_parent_rule fsScen ["a"] false true [mkEntry fsScen ["a", "docs"]] (by decide)⟩

/-- C8: with sorting enabled the non-parent displayed entries are ordered
by the case-sensitive comparison of their names and are a permutation of
the filtered cache; with sorting disabled they are exactly the filtered
cache in cache order; and the spec's `/a` scenario (`.git`, `src`, `docs`;
hidden off, sort on) displays `[parent, docs, src]`. -/
theorem C8_sort_rule (sh : Bool) (cache : List DirectoryEntry) :
    List.Sorted entryRel (displayTail sh true cache)
    ∧ List.Perm (displayTail sh true cache) (cache.filter (fun e => !hide sh e.location))
    ∧ displayTail sh false cache = cache.filter (fun e => !hide sh e.location)
    ∧ display fsScen ["a"] false true (scanListing fsScen ["a"])
        = [mkEntry fsScen ["a", ".."], mkEntry fsScen ["a", "docs"], mkEntry fsScen ["a", "src"]] :=
  ⟨List.sorted_insertionSort entryRel _, List.perm_insertionSort entryRel _, rfl, by decide⟩

/-- A children function with every directory empty. -/
def chEmpty : FsPath → Option (List (Name × Bool)) := fun _ => some []

/-- Two filesystems with identical directory structure that differ only in
the modification time of `/a`. -/
def fsMt0 : FS := { children := chEmpty, mtime := fun _ => 0 }

def fsMt1 : FS := { children := chEmpty, mtime := fun p => if p = ["a"] then 1 else 0 }

/-- A mounted widget sitting at the non-root location `/a/b` with an empty
cache. -/
def sDeep : Sys :=
  { location := ["a", "b"], show_hidden := false, sort_display := true, entries := [],
    displayed := [], highlighted := none, changed_messages := 0, workers := [] }

/-- C5 counterexample: toggling `show_hidden` does *not* re-derive the
displayed list solely from the existing cache plus the flags — rebuilding
the synthetic parent row calls `DirectoryEntry(self._location / "..")`,
whose constructor `stat()`s the parent.  Two filesystems with identical
listings and identical widget state (same cache, same flags) produce
different displayed lists when the parent's modification time differs, so
the projection reads the filesystem. -/
theorem C5_toggle_reads_fs_counterexample :
    fsMt0.children = fsMt1.children
    ∧ (toggle_hidden fsMt0 sDeep).entries = (toggle_hidden fsMt1 sDeep).entries
    ∧ (toggle_hidden fsMt0 sDeep).show_hidden = (toggle_hidden fsMt1 sDeep).show_hidden
    ∧ (toggle_hidden fsMt0 sDeep).sort_display = (toggle_hidden fsMt1 sDeep).sort_display
    ∧ (toggle_hidden fsMt0 sDeep).displayed ≠ (toggle_hidden fsMt1 sDeep).displayed :=
  ⟨rfl, by decide, by decide, by decide, by decide⟩

/-- C5 (amended): toggling `show_hidden` or assigning `sort_display` never
starts a scan and leaves the entry cache, the location, the workers and the
message count unchanged; the displayed list is recomputed by the projection
from the cache, the flags, the location *and the filesystem* (the fresh
parent row re-reads the parent's metadata). -/
theorem C5_toggle_no_scan (fs : FS) (s : Sys) (b : Bool) :
    (toggle_hidden fs s).entries = s.entries
    ∧ (toggle_hidden fs s).location = s.location
    ∧ (toggle_hidden fs s).workers = s.workers
    ∧ (toggle_hidden fs s).changed_messages = s.changed_messages
    ∧ (toggle_hidden fs s).show_hidden = !s.show_hidden
    ∧ (toggle_hidden fs s).displayed
        = display fs s.location (!s.show_hidden) s.sort_display s.entries
    ∧ (set_sort_display fs b s).entries = s.entries
    ∧ (set_sort_display fs b s).location = s.location
    ∧ (set_sort_display fs b s).workers = s.workers
    ∧ (set_sort_display fs b s).changed_messages = s.changed_messages := by
  unfold toggle_hidden set_sort_display repopulate_display
  refine ⟨rfl, rfl, rfl, rfl, rfl, rfl, ?_, ?_, ?_, ?_⟩ <;> split <;> rfl

/-- C9 counterexample: on a platform without `os.listdrives` the
`DriveNavigation.on_mount` call propagates the `AttributeError` — it does
not produce an empty drive list. -/
theorem C9_listdrives_counterexample :
    driveOnMount DrivesApi.missing = Except.error "AttributeError"
    ∧ driveOnMount DrivesApi.missing ≠ Except.ok ([] : List String) := by
  refine ⟨rfl, ?_⟩
  intro h
  exact Except.noConfusion h

/-- C9 (amended): `on_mount` performs no error handling — a successful
`os.listdrives()` populates the widget with exactly the returned drives,
and any failure (missing API on non-Windows, or an `OSError`) propagates
as an exception rather than being reported as zero drives. -/
theorem C9_listdrives_amended :
    (∀ ds, driveOnMount (DrivesApi.available ds) = Except.ok ds)
    ∧ driveOnMount DrivesApi.osError = Except.error "OSError"
    ∧ driveOnMount DrivesApi.missing = Except.error "AttributeError" :=
  ⟨fun _ => rfl, rfl, rfl⟩

/-- C10 counterexample: two distinct `DirectoryEntry` objects constructed
from the same path are *not* `==`-equal — the class inherits
`object.__eq__` (identity), so path equality does not imply equality. -/
theorem C10_entry_eq_counterexample :
    pyEntryEq ⟨0, ["a"]⟩ ⟨1, ["a"]⟩ = false
    ∧ (PyDirectoryEntry.mk 0 ["a"]).location = (PyDirectoryEntry.mk 1 ["a"]).location := by
  decide

/-- C10 (amended): `DirectoryEntry` equality is object identity — every
entry equals itself, and two entries are `==`-equal iff they are the same
object; it does not coincide with resolved-path equality. -/
theorem C10_entry_eq_amended :
    (∀ a : PyDirectoryEntry, pyEntryEq a a = true)
    ∧ (∀ a b : PyDirectoryEntry, pyEntryEq a b = true ↔ a.oid = b.oid) := by
  constructor
  · intro a
    simp [pyEntryEq]
  · intro a b
    simp [pyEntryEq]

/-- C1: a concrete interleaving in which a result of the superseded scan
*is* applied to the entry cache.  `setLocation(/x)` starts scan A; A resets
the cache and obtains `/x`'s listing; `setLocation(/y)` cancels A and
starts scan B; B runs to completion and commits `[/y/d]` (`/y`'s file `c`
fails `is_dir()`, so B never lists it); then A's thread runs its one
pending loop body — `is_dir()` holds for its child `/x/c`, so it
constructs `DirectoryEntry(self._location / "c")` from the *new* location:
the existing file `/y/c`, whose `stat()` succeeds, appended before A's
first look at `is_cancelled` — leaving the cache `[/y/d, /y/c]`, which is
not B's listing (the file entry `/y/c` is one no scan of `/y` could
produce).  The `is_cancelled` check sits *after* the append and `_entries`
is mutated in place by the worker thread, so the superseded request's
write survives. -/
theorem C1_stale_scan_pollutes_cache :
    (exec fsRace traceRace sStart).entries
      = [mkEntry fsRace ["y", "d"], mkEntry fsRace ["y", "c"]]
    ∧ scanListing fsRace ["y"] = [mkEntry fsRace ["y", "d"]]
    ∧ (exec fsRace traceRace sStart).entries ≠ scanListing fsRace ["y"]
    ∧ mkEntry fsRace ["y", "c"] ∉ scanListing fsRace ["y"] := by
  decide

/-- Filesystem for the cancellation counterexample, coherent as a tree:
the root holds directories `p`, `x`, `z`; `/p` contains the directory
`old`; `/x` contains the directory `c`; `/z` contains a *file* named `c`
(existing and `stat()`-able, but never listed by a scan since `is_dir()`
is false).  Every other path does not exist (or is the file `/z/c`), so
enumerating it raises. -/
def fsTwo : FS :=
  { children := fun p =>
      if p = [] then some [("p", true), ("x", true), ("z", true)]
      else if p = ["p"] then some [("old", true)]
      else if p = ["p", "old"] then some []
      else if p = ["x"] then some [("c", true)]
      else if p = ["x", "c"] then some []
      else if p = ["z"] then some [("c", false)]
      else none
    mtime := fun _ => 0 }

/-- A widget at `/p` whose cache holds `/p`'s loaded listing. -/
def sOld : Sys :=
  { location := ["p"], show_hidden := false, sort_display := true,
    entries := [mkEntry fsTwo ["p", "old"]],
    displayed := display fsTwo ["p"] false true [mkEntry fsTwo ["p", "old"]],
    highlighted := some 0, changed_messages := 0, workers := [] }

/-- Trace: `setLocation(/x)` starts a scan; it resets the cache and reads `/x`'s
listing; `setLocation(/z)` cancels it; its final loop body sees
`is_dir()` true for `/x/c`, constructs `DirectoryEntry(/z/c)` — the
existing file `/z/c`, so the `stat()` succeeds — appends it, and only then
observes the cancellation and returns. -/
def traceCancel : List Act := [.setLoc ["x"], .tick 0, .setLoc ["z"], .tick 0]

/-- C2 counterexample: a scan cancelled before completing leaves the entry
cache different from its pre-scan value — the cache was cleared at scan
start and retains the one entry (the existing file `/z/c`, appended after
a successful `stat()`) processed before the cancellation check, instead of
the pre-scan listing of `/p`. -/
theorem C2_cancelled_scan_counterexample :
    (exec fsTwo traceCancel sOld).entries = [mkEntry fsTwo ["z", "c"]]
    ∧ (exec fsTwo traceCancel sOld).entries ≠ sOld.entries := by
  decide

/-- Invariant carried by the slices of a cancelled worker `i`: while it is
in its loop the cache holds only what this run put there (nothing, since
it will stop at its first post-append check), and once past the loop the
cache holds at most one entry. -/
def cancelledSafe (i : Nat) (s : Sys) : Prop :=
  match s.workers[i]? with
  | some ⟨true, WState.loop _⟩ => s.entries = []
  | some ⟨true, WState.wcommit⟩ => s.entries.length ≤ 1
  | some ⟨true, WState.wdone⟩ => s.entries.length ≤ 1
  | _ => False

theorem tick_keeps_cancelledSafe (fs : FS) (i : Nat) (s : Sys) (h : cancelledSafe i s) :
    cancelledSafe i (tick fs i s) := by
  unfold cancelledSafe at h
  rcases hw : s.workers[i]? with _ | w
  · rw [hw] at h
    exact h.elim
  · rw [hw] at h
    have hlt : i < s.workers.length := (List.getElem?_eq_some.mp hw).1
    obtain ⟨c, st⟩ := w
    cases c with
    | false => exact h.elim
    | true =>
      cases st with
      | winit => exact h.elim
      | loop pending =>
        cases pending with
        | nil =>
          simp only [tick, hw]
          unfold cancelledSafe
          simp only [Sys.mk.injEq]
          simp only [List.getElem?_set_self hlt]
          simp [h]
        | cons child rest =>
          rcases child with ⟨nm, d⟩
          simp only [tick, hw, if_true]
          by_cases hst : (d && !statable fs (resolvePath (s.location ++ [nm]))) = true
          · rw [if_pos hst]
            unfold cancelledSafe
            dsimp only
            simp only [List.getElem?_set_self hlt]
            simp [h]
          · rw [if_neg hst]
            unfold cancelledSafe
            dsimp only
            simp only [List.getElem?_set_self hlt]
            cases d <;> simp [h]
      | wcommit =>
        simp only [tick, hw, repopulate_display]
        unfold cancelledSafe
        dsimp only
        simp only [List.getElem?_set_self hlt]
        simpa using h
      | wdone =>
        simp only [tick, hw]
        unfold cancelledSafe
        rw [hw]
        exact h

theorem tick_from_init_cancelledSafe (fs : FS) (i : Nat) (s : Sys)
    (hw : s.workers[i]? = some ⟨true, WState.winit⟩) :
    cancelledSafe i (tick fs i s) := by
  have hlt : i < s.workers.length := (List.getElem?_eq_some.mp hw).1
  simp only [tick, hw]
  rcases hc : fs.children s.location with _ | cs
  · unfold cancelledSafe
    simp [List.getElem?_set_self hlt]
  · unfold cancelledSafe
    simp [List.getElem?_set_self hlt]

theorem ticks_keep_cancelledSafe (fs : FS) (i : Nat) :
    ∀ (n : Nat) (s : Sys), cancelledSafe i s → cancelledSafe i (ticks fs i n s)
  | 0, _, h => h
  | n + 1, s, h =>
    ticks_keep_cancelledSafe fs i n (tick fs i s) (tick_keeps_cancelledSafe fs i s h)

theorem cancelledSafe_entries_bounded (i : Nat) (s : Sys) (h : cancelledSafe i s) :
    s.entries.length ≤ 1 := by
  unfold cancelledSafe at h
  rcases hw : s.workers[i]? with _ | w
  · rw [hw] at h
    exact h.elim
  · rw [hw] at h
    obtain ⟨c, st⟩ := w
    cases c with
    | false => exact h.elim
    | true =>
      cases st with
      | winit => exact h.elim
      | loop pending => simp [h]
      | wcommit => exact h
      | wdone => exact h

/-- C2 (amended): a scan whose worker is cancelled before it runs never
restores the pre-scan cache — it clears the cache at scan start and then,
because the `is_cancelled` check sits after the append, leaves at most one
entry (the single child processed before the check) in the cache, however
long it is scheduled. -/
theorem C2_cancelled_scan_bounded (fs : FS) (i : Nat) (s : Sys) (n : Nat)
    (hw : s.workers[i]? = some ⟨true, WState.winit⟩) :
    (ticks fs i (n + 1) s).entries.length ≤ 1 :=
  cancelledSafe_entries_bounded i _
    (ticks_keep_cancelledSafe fs i n (tick fs i s) (tick_from_init_cancelledSafe fs i s hw))

/-- A widget whose pending scan worker has already been cancelled before
running, while the cache still holds the old listing of `/p`. -/
def sCancelledInit : Sys :=
  { location := ["x"], show_hidden := false, sort_display := true,
    entries := [mkEntry fsTwo ["p", "old"]],
    displayed := [], highlighted := none, changed_messages := 1,
    workers := [⟨true, WState.winit⟩] }

/-- Witness for C2 (amended) at a concrete input: three slices of the
cancelled worker leave at most one cache entry. -/
theorem C2_cancelled_scan_bounded_witness :
    sCancelledInit.workers[0]? = some ⟨true, WState.winit⟩
    ∧ (ticks fsTwo 0 3 sCancelledInit).entries.length ≤ 1 :=
  ⟨rfl, C2_cancelled_scan_bounded fsTwo 0 sCancelledInit 2 rfl⟩

/-- Filesystem for the failed-enumeration trace: `/p` contains `old`; the
listing of every other path (in particular `/missing`) raises. -/
def fsMissing : FS :=
  { children := fun p => if p = ["p"] then some [("old", true)] else none
    mtime := fun _ => 0 }

/-- A widget at `/p` with `/p`'s listing loaded and displayed. -/
def sLoaded : Sys :=
  { location := ["p"], show_hidden := false, sort_display := true,
    entries := [mkEntry fsMissing ["p", "old"]],
    displayed := display fsMissing ["p"] false true [mkEntry fsMissing ["p", "old"]],
    highlighted := some 0, changed_messages := 0, workers := [] }

/-- Navigate to `/missing` and run the scan, whose `iterdir()` raises. -/
def traceMissing : List Act := [.setLoc ["missing"], .tick 0]

/-- C3 counterexample: a scan whose whole-directory enumeration fails does
*not* leave the entry cache at its pre-scan value — `self._entries = []`
runs before `iterdir()` is consumed, so the failed scan leaves the cache
empty (here the pre-scan cache held `/p/old`).  The location and the
displayed list are indeed left unchanged by the failing scan itself. -/
theorem C3_failed_scan_clears_cache :
    (exec fsMissing traceMissing sLoaded).entries = []
    ∧ (exec fsMissing traceMissing sLoaded).entries ≠ sLoaded.entries
    ∧ (exec fsMissing traceMissing sLoaded).location = ["missing"]
    ∧ (exec fsMissing traceMissing sLoaded).displayed = sLoaded.displayed := by
  decide

/-- C3 (amended): when the enumeration of the scan's target raises, the
scan slice changes nothing except that the cache has been cleared and the
worker dies (errored): the location, the displayed list, the flags and the
message count are all left as they were, and the entry cache is left empty
rather than at its pre-scan value. -/
theorem C3_failed_scan_amended (fs : FS) (s : Sys) (i : Nat) (c : Bool)
    (hw : s.workers[i]? = some ⟨c, WState.winit⟩)
    (hf : fs.children s.location = none) :
    tick fs i s = { s with entries := [], workers := s.workers.set i ⟨c, WState.wdone⟩ } := by
  simp only [tick, hw, hf]

/-- The state right after `setLocation(/missing)` on `sLoaded`, before the
scan worker runs. -/
def sAtMissing : Sys :=
  { location := ["missing"], show_hidden := false, sort_display := true,
    entries := [mkEntry fsMissing ["p", "old"]],
    displayed := display fsMissing ["p"] false true [mkEntry fsMissing ["p", "old"]],
    highlighted := some 0, changed_messages := 1,
    workers := [⟨false, WState.winit⟩] }

/-- Witness for C3 (amended) at a concrete input. -/
theorem C3_failed_scan_amended_witness :
    sAtMissing.workers[0]? = some ⟨false, WState.winit⟩
    ∧ fsMissing.children sAtMissing.location = none
    ∧ tick fsMissing 0 sAtMissing
        = { sAtMissing with
            entries := []
            workers := sAtMissing.workers.set 0 ⟨false, WState.wdone⟩ } :=
  ⟨rfl, by decide, C3_failed_scan_amended fsMissing sAtMissing 0 false rfl (by decide)⟩
